import Mathlib

/-!
Verification of the database connection-configuration and session-lifecycle
layer of the repository (src/db/settings.py, src/db/session.py and the
development resources in src/workspace/dev_resources.py).

Modelling conventions: Python `str` is Lean `String`; `Optional[...]` is
`Option`; a raised exception is the `Except.error` case of `Except PyError`;
the process environment read `os.getenv("RUNTIME_ENV")` and the outcome of
the local `from workspace.dev_resources ...` statement inside `get_db_url`
are passed as explicit arguments.  All definitions are executable.
-/

/-- Exceptions raised by the embedded code. -/
inductive PyError where
  | importError (msg : String)
  | valueError (msg : String)
  | attributeError (name : String)
  | runtimeError (msg : String)
  | raisedExc (msg : String)
deriving DecidableEq

/-- List-level test that `pat` is a leading block of the second list
(the Python prefix comparison used below to embed substring search). -/
def listStarts : List Char → List Char → Bool
  | [], _ => true
  | _ :: _, [] => false
  | p :: ps, c :: cs => if p = c then listStarts ps cs else false

/-- List-level embedding of the Python substring test `pat in s`:
does `pat` occur as a contiguous block anywhere in the list. -/
def listOccurs (pat : List Char) : List Char → Bool
  | [] => listStarts pat []
  | c :: cs => listStarts pat (c :: cs) || listOccurs pat cs

/-- Embedding of the Python substring test `pat in s` on strings. -/
def containsStr (s pat : String) : Bool :=
  listOccurs pat.data s.data

/-- Fuelled worker for `replaceAll`; the fuel starts at the length of the
scanned list, which is enough because every step consumes at least one
character and spends exactly one unit of fuel. -/
def replaceGo (pat repl : List Char) : Nat → List Char → List Char
  | _, [] => []
  | 0, l => l
  | fuel + 1, c :: cs =>
    if listStarts pat (c :: cs) && !pat.isEmpty then
      repl ++ replaceGo pat repl fuel (cs.drop (pat.length - 1))
    else
      c :: replaceGo pat repl fuel cs

/-- Embedding of Python `str.replace` for a non-empty pattern: scan left to
right and replace every non-overlapping occurrence of `pat` by `repl`
(scanning resumes after the replacement, exactly as in CPython). -/
def replaceAll (pat repl l : List Char) : List Char :=
  replaceGo pat repl l.length l

/-- String-level embedding of Python `s.replace(pat, repl)`. -/
def strReplace (s pat repl : String) : String :=
  ⟨replaceAll pat.data repl.data s.data⟩

/-- Python str() rendering of an `Optional[str]` interpolated into a format
string: `None` renders as the four characters `None`. -/
def pyFmt : Option String → String
  | none => "None"
  | some s => s

/-- Python str() rendering of the `Optional[int]` field `db_port` when it is
interpolated into the URL format string. -/
def pyFmtPort : Option Int → String
  | none => "None"
  | some i => toString i

/-- Python truthiness of an `Optional[str]`: `None` and `""` are falsy. -/
def pyTruthy : Option String → Bool
  | none => false
  | some s => !s.data.isEmpty

/-- Embedding of `DbSettings` (src/db/settings.py) with the source's field
defaults. -/
structure DbSettings where
  db_host : Option String := none
  db_port : Option Int := none
  db_user : Option String := none
  db_pass : Option String := none
  db_database : Option String := none
  db_driver : String := "postgresql+psycopg"
  migrate_db : Bool := false
  database_url : Option String := none
  database_url_async : Option String := none
  database_url_unpooled : Option String := none
  pool_size : Nat := 5
  max_overflow : Nat := 10
  use_async_driver : Bool := false
deriving DecidableEq

/-- Top-level names actually bound by the module `workspace.dev_resources`
(src/workspace/dev_resources.py): the local database resource `dev_db` was
removed from it and only these assignments remain. -/
def dev_resources_defines : List String :=
  ["dev_image", "container_env", "dev_fastapi", "dev_docker_resources"]

/-- Outcome of the statement `from workspace.dev_resources ...` that pulls in
`dev_db`, followed by `dev_db.get_db_connection_local()`: the name lookup
succeeds only when the module binds `dev_db`, otherwise Python raises
ImportError.  `r` is what `get_db_connection_local()` would return when the
name exists. -/
def import_dev_db (r : Option String) : Except PyError (Option String) :=
  if dev_resources_defines.contains "dev_db" then .ok r
  else .error (.importError "cannot import name dev_db from workspace.dev_resources")

/-- The discrete-field URL format string of `get_db_url`:
`"{}://{}{}@{}:{}/{}".format(driver, user, passSeg, host, port, database)`. -/
def synthUrl (drv usr seg hst prt db : String) : String :=
  drv ++ "://" ++ usr ++ seg ++ "@" ++ hst ++ ":" ++ prt ++ "/" ++ db

/-- Embedding of the local-development fallback block of `get_db_url`:
the import outcome `devDb` stands for `dev_db.get_db_connection_local()`;
when it yields a truthy URL that URL is returned (async-rewritten when
needed), otherwise control falls through to the final validity check of
`get_db_url`, which is repeated here verbatim. -/
def local_fallback (devDb : Except PyError (Option String)) (for_async : Bool)
    (db_url : String) : Except PyError String :=
  match devDb with
  | .error e => .error e
  | .ok localOpt =>
    if pyTruthy localOpt then
      let local_db_url := localOpt.getD ""
      if for_async then
        .ok (strReplace local_db_url "postgresql://" "postgresql+asyncpg://")
      else
        .ok local_db_url
    else if containsStr db_url "None" then
      .error (.valueError "Could not build database connection")
    else
      .ok db_url

/-- Embedding of `DbSettings.get_db_url` (src/db/settings.py).  `devDb` is the
outcome of the in-function import of `dev_db` plus its
`get_db_connection_local()` call, and `runtime_env` is
`os.getenv("RUNTIME_ENV")`.  The final source check `db_url is None` is
dropped because `db_url` is a freshly formatted string and never `None`. -/
def DbSettings.get_db_url (self : DbSettings) (devDb : Except PyError (Option String))
    (runtime_env : Option String) (for_async : Bool) : Except PyError String :=
  if for_async && pyTruthy self.database_url_async then
    .ok (self.database_url_async.getD "")
  else if !for_async && pyTruthy self.database_url then
    .ok (self.database_url.getD "")
  else if pyTruthy self.database_url then
    let base_url := strReplace (self.database_url.getD "") "postgres://" "postgresql://"
    if for_async then
      .ok (strReplace base_url "postgresql://" "postgresql+asyncpg://")
    else
      .ok base_url
  else
    let driver := if for_async then "postgresql+asyncpg" else self.db_driver
    let db_url := synthUrl driver (pyFmt self.db_user)
      (if pyTruthy self.db_pass then ":" ++ self.db_pass.getD "" else "")
      (pyFmt self.db_host) (pyFmtPort self.db_port) (pyFmt self.db_database)
    if containsStr db_url "None" && runtime_env.isNone then
      local_fallback devDb for_async db_url
    else if containsStr db_url "None" then
      .error (.valueError "Could not build database connection")
    else
      .ok db_url

/-- The SQLAlchemy engine keyword arguments built by `get_engine_kwargs`;
dict keys are modelled as fields, and `connect_args_sslmode = some "require"`
stands for the entry `connect_args={"sslmode": "require"}`. -/
structure EngineKwargs where
  pool_pre_ping : Bool
  pool_size : Nat
  max_overflow : Nat
  connect_args_sslmode : Option String
deriving DecidableEq

/-- Embedding of `DbSettings.get_engine_kwargs` (src/db/settings.py). -/
def DbSettings.get_engine_kwargs (self : DbSettings) : EngineKwargs :=
  let kwargs : EngineKwargs :=
    { pool_pre_ping := true
      pool_size := self.pool_size
      max_overflow := self.max_overflow
      connect_args_sslmode := none }
  if pyTruthy self.database_url && containsStr (self.database_url.getD "") "neon.tech" then
    { kwargs with connect_args_sslmode := some "require" }
  else
    kwargs

/-- How the caller scope around a yielded session terminates. -/
inductive ExitPath where
  | success
  | earlyReturn
  | raisedErr (msg : String)

/-- Spy counters for one acquisition: how many sessions were constructed and
how many times `close` was invoked on the yielded session. -/
structure SessionTrace where
  sessionsOpened : Nat
  closeCalls : Nat
deriving DecidableEq

/-- Embedding of `get_db` (src/db/session.py): `db = SessionLocal()`;
`try: yield db` hands the session to the caller whose scope ends via `ex`;
`finally: db.close()` runs on every exit path (the dependency framework
closes the generator, which raises GeneratorExit at the yield and still runs
the finally clause). -/
def get_db (ex : ExitPath) : Except PyError Unit × SessionTrace :=
  let t : SessionTrace := { sessionsOpened := 1, closeCalls := 0 }
  let t : SessionTrace := { t with closeCalls := t.closeCalls + 1 }
  match ex with
  | .raisedErr m => (.error (.raisedExc m), t)
  | _ => (.ok (), t)

/-- Embedding of `get_async_session` (src/db/session.py).  When async mode is
off it raises RuntimeError before touching any session.  Otherwise
`async with AsyncSessionLocal() as session` constructs one session and, per
the SQLAlchemy AsyncSession context manager, invokes `session.close()` on
exit; the inner `finally: await session.close()` also runs on every exit
path, so `close` is invoked by both. -/
def get_async_session (useAsync : Bool) (ex : ExitPath) :
    Except PyError Unit × SessionTrace :=
  if !useAsync then
    (.error (.runtimeError
        "Асинхронное подключение не настроено. Установите USE_ASYNC_DRIVER=True"),
      { sessionsOpened := 0, closeCalls := 0 })
  else
    let t : SessionTrace := { sessionsOpened := 1, closeCalls := 0 }
    let t : SessionTrace := { t with closeCalls := t.closeCalls + 1 }
    let t : SessionTrace := { t with closeCalls := t.closeCalls + 1 }
    match ex with
    | .raisedErr m => (.error (.raisedExc m), t)
    | _ => (.ok (), t)

/-- The counter methods a pool object may expose; `none` means the attribute
is absent so that calling it raises AttributeError. -/
structure PoolAPI where
  status : Option String := none
  size : Option Int := none
  checkedin : Option Int := none
  overflow : Option Int := none
  checkedout : Option Int := none
deriving DecidableEq

/-- Python attribute access `obj.name()` on a possibly missing attribute. -/
def pyAttr {α : Type} (name : String) (v : Option α) : Except PyError α :=
  match v with
  | some x => .ok x
  | none => .error (.attributeError name)

/-- The async-pool counter block that `get_db_stats` builds under
`async_engine_stats`. -/
structure AsyncEngineStats where
  pool_size : Int
  checkedin : Int
  overflow : Int
  checkedout : Int
deriving DecidableEq

/-- The dict returned by `get_db_stats`, with the async block present only
when it was added. -/
structure StatsSnapshot where
  sync_mode : String
  async_enabled : Bool
  engine_stats : String
  async_engine_stats : Option AsyncEngineStats
deriving DecidableEq

/-- Embedding of `get_db_stats` (src/db/session.py): reads the pool counters
directly, with no exception handling around the attribute accesses. -/
def get_db_stats (useAsync : Bool) (syncPool asyncPool : PoolAPI) :
    Except PyError StatsSnapshot := do
  let st ← pyAttr "status" syncPool.status
  let base : StatsSnapshot :=
    { sync_mode := "sqlalchemy"
      async_enabled := useAsync
      engine_stats := st
      async_engine_stats := none }
  if useAsync then
    let sz ← pyAttr "size" asyncPool.size
    let ci ← pyAttr "checkedin" asyncPool.checkedin
    let ov ← pyAttr "overflow" asyncPool.overflow
    let co ← pyAttr "checkedout" asyncPool.checkedout
    pure { base with async_engine_stats := some ⟨sz, ci, ov, co⟩ }
  else
    pure base

/-- The module-level engine construction of src/db/session.py: the sync URL
and kwargs are resolved once; when `use_async_driver` is set the async engine
is created from the async URL with the same `engine_kwargs` value. -/
structure SessionModule where
  use_async : Bool
  sync_engine_url : Except PyError String
  sync_engine_kwargs : EngineKwargs
  async_engine : Option (Except PyError String × EngineKwargs)

/-- Embedding of the import-time statements of src/db/session.py. -/
def session_module_init (devDb : Except PyError (Option String))
    (runtime_env : Option String) (s : DbSettings) : SessionModule :=
  let db_url := s.get_db_url devDb runtime_env false
  let engine_kwargs := s.get_engine_kwargs
  { use_async := s.use_async_driver
    sync_engine_url := db_url
    sync_engine_kwargs := engine_kwargs
    async_engine :=
      if s.use_async_driver then
        some (s.get_db_url devDb runtime_env true, engine_kwargs)
      else
        none }

theorem string_data_append (a b : String) : (a ++ b).data = a.data ++ b.data := by
  cases a; cases b; rfl

theorem string_mk_append (a b : String) : (⟨a.data ++ b.data⟩ : String) = a ++ b := by
  cases a; cases b; rfl

theorem data_empty : ("" : String).data = [] := rfl

theorem data_scheme_sep : ("://" : String).data = [':', '/', '/'] := rfl

theorem data_at_sign : ("@" : String).data = ['@'] := rfl

theorem data_colon : (":" : String).data = [':'] := rfl

theorem data_slash : ("/" : String).data = ['/'] := rfl

theorem listStarts_self_append (pat t : List Char) : listStarts pat (pat ++ t) = true := by
  induction pat with
  | nil => rfl
  | cons p ps ih => simp [listStarts, ih]

theorem listStarts_mono (pat l t : List Char) (h : listStarts pat l = true) :
    listStarts pat (l ++ t) = true := by
  induction pat generalizing l with
  | nil => rfl
  | cons p ps ih =>
    cases l with
    | nil => simp [listStarts] at h
    | cons c cs =>
      simp only [List.cons_append, listStarts] at h ⊢
      by_cases hpc : p = c
      · simp only [hpc, if_true] at h ⊢
        exact ih cs h
      · simp [hpc] at h

theorem listOccurs_nil_pat (l : List Char) : listOccurs [] l = true := by
  cases l with
  | nil => rfl
  | cons c cs => simp [listOccurs, listStarts]

theorem occurs_of_starts (pat l : List Char) (h : listStarts pat l = true) :
    listOccurs pat l = true := by
  cases l with
  | nil => simpa [listOccurs] using h
  | cons c cs => simp [listOccurs, h]

theorem occurs_cons_of (pat l : List Char) (c : Char) (h : listOccurs pat l = true) :
    listOccurs pat (c :: l) = true := by
  simp [listOccurs, h]

theorem occurs_monoR (pat l b : List Char) (h : listOccurs pat l = true) :
    listOccurs pat (l ++ b) = true := by
  induction l with
  | nil =>
    cases pat with
    | nil => exact listOccurs_nil_pat b
    | cons p ps => simp [listOccurs, listStarts] at h
  | cons c cs ih =>
    simp only [listOccurs, Bool.or_eq_true] at h
    rcases h with h | h
    · simpa [List.cons_append] using
        occurs_of_starts pat ((c :: cs) ++ b) (listStarts_mono pat (c :: cs) b h)
    · simpa [List.cons_append] using occurs_cons_of pat (cs ++ b) c (ih h)

theorem occurs_monoL (pat a l : List Char) (h : listOccurs pat l = true) :
    listOccurs pat (a ++ l) = true := by
  induction a with
  | nil => simpa using h
  | cons x xs ih => simpa [List.cons_append] using occurs_cons_of pat (xs ++ l) x ih

theorem listStarts_stop (c : Char) (b : List Char) :
    ∀ (pat a : List Char), c ∉ pat → listStarts pat (a ++ c :: b) = true →
      listStarts pat a = true := by
  intro pat
  induction pat with
  | nil => intro a _ _; rfl
  | cons p ps ih =>
    intro a hc h
    cases a with
    | nil =>
      simp only [List.nil_append, listStarts] at h
      by_cases hpc : p = c
      · cases hpc
        exact absurd (List.mem_cons_self _ _) hc
      · simp [hpc] at h
    | cons x xs =>
      simp only [List.cons_append, listStarts] at h ⊢
      by_cases hpx : p = x
      · simp only [hpx, if_true] at h ⊢
        exact ih xs (fun hm => hc (List.mem_cons_of_mem _ hm)) h
      · simp [hpx] at h

theorem occurs_split (pat : List Char) (c : Char) (b : List Char)
    (hne : pat ≠ []) (hc : c ∉ pat) :
    ∀ a, listOccurs pat (a ++ c :: b) = true →
      listOccurs pat a = true ∨ listOccurs pat b = true := by
  intro a
  induction a with
  | nil =>
    intro h
    simp only [List.nil_append, listOccurs, Bool.or_eq_true] at h
    rcases h with h | h
    · cases pat with
      | nil => exact absurd rfl hne
      | cons p ps =>
        simp only [listStarts] at h
        by_cases hpc : p = c
        · cases hpc
          exact absurd (List.mem_cons_self _ _) hc
        · simp [hpc] at h
    · exact Or.inr h
  | cons x xs ih =>
    intro h
    simp only [List.cons_append, listOccurs, Bool.or_eq_true] at h
    rcases h with h | h
    · have hx : listStarts pat (x :: xs) = true :=
        listStarts_stop c b pat (x :: xs) hc (by simpa [List.cons_append] using h)
      exact Or.inl (occurs_of_starts pat (x :: xs) hx)
    · rcases ih h with h2 | h2
      · exact Or.inl (occurs_cons_of pat xs x h2)
      · exact Or.inr h2

theorem occurs_cons_elim (pat : List Char) (c : Char) (b : List Char)
    (hne : pat ≠ []) (hc : c ∉ pat) (h : listOccurs pat (c :: b) = true) :
    listOccurs pat b = true := by
  rcases occurs_split pat c b hne hc [] (by simpa using h) with h2 | h2
  · cases pat with
    | nil => exact absurd rfl hne
    | cons p ps => simp [listOccurs, listStarts] at h2
  · exact h2

theorem drop_len_append (a b : List Char) : (a ++ b).drop a.length = b := by
  induction a with
  | nil => rfl
  | cons x xs ih => simp [ih]

theorem replaceGo_fuel (pat repl : List Char) :
    ∀ f g l, l.length ≤ f → l.length ≤ g →
      replaceGo pat repl f l = replaceGo pat repl g l := by
  intro f
  induction f with
  | zero =>
    intro g l h1 _
    have hl : l = [] := by
      cases l with
      | nil => rfl
      | cons c cs => simp at h1
    subst hl
    cases g <;> rfl
  | succ f ih =>
    intro g l h1 h2
    cases l with
    | nil => cases g <;> rfl
    | cons c cs =>
      cases g with
      | zero => simp at h2
      | succ g2 =>
        have hcs1 : cs.length ≤ f := by
          simp only [List.length_cons] at h1; omega
        have hcs2 : cs.length ≤ g2 := by
          simp only [List.length_cons] at h2; omega
        have hdl : (cs.drop (pat.length - 1)).length ≤ cs.length := by
          simp [List.length_drop]
        simp only [replaceGo]
        by_cases hcond : (listStarts pat (c :: cs) && !pat.isEmpty) = true
        · rw [if_pos hcond, if_pos hcond]
          exact congrArg (repl ++ ·)
            (ih g2 _ (le_trans hdl hcs1) (le_trans hdl hcs2))
        · rw [if_neg hcond, if_neg hcond]
          exact congrArg (c :: ·) (ih g2 cs hcs1 hcs2)

theorem replaceAll_front_match (pat repl rest : List Char) (hne : pat ≠ []) :
    replaceAll pat repl (pat ++ rest) = repl ++ replaceAll pat repl rest := by
  cases pat with
  | nil => exact absurd rfl hne
  | cons p ps =>
    have hstart : listStarts (p :: ps) (p :: (ps ++ rest)) = true := by
      simpa [List.cons_append] using listStarts_self_append (p :: ps) rest
    have hcond : (listStarts (p :: ps) (p :: (ps ++ rest)) && !(p :: ps).isEmpty) = true := by
      simp [hstart]
    show replaceGo (p :: ps) repl ((p :: (ps ++ rest)).length) (p :: (ps ++ rest)) = _
    rw [List.length_cons]
    simp only [replaceGo]
    rw [if_pos hcond]
    congr 1
    have hlen : (p :: ps).length - 1 = ps.length := by simp
    rw [hlen, drop_len_append]
    exact replaceGo_fuel (p :: ps) repl _ _ rest (by simp) (le_refl _)

theorem replaceGo_no_occur (pat repl : List Char) :
    ∀ fuel l, listOccurs pat l = false → replaceGo pat repl fuel l = l := by
  intro fuel
  induction fuel with
  | zero => intro l _; cases l <;> rfl
  | succ f ih =>
    intro l h
    cases l with
    | nil => rfl
    | cons c cs =>
      have hparts : listStarts pat (c :: cs) = false ∧ listOccurs pat cs = false := by
        simpa [listOccurs] using h
      simp only [replaceGo]
      rw [if_neg]
      · exact congrArg (c :: ·) (ih cs hparts.2)
      · simp [hparts.1]

theorem replaceAll_no_occur (pat repl l : List Char) (h : listOccurs pat l = false) :
    replaceAll pat repl l = l :=
  replaceGo_no_occur pat repl l.length l h

theorem strReplace_front (s rest pat repl : String)
    (hs : s.data = pat.data ++ rest.data) (hne : pat.data ≠ [])
    (hno : containsStr rest pat = false) :
    strReplace s pat repl = repl ++ rest := by
  unfold strReplace
  rw [hs, replaceAll_front_match pat.data repl.data rest.data hne,
    replaceAll_no_occur pat.data repl.data rest.data hno, string_mk_append]

theorem synthUrl_data (drv usr seg hst prt db : String) :
    (synthUrl drv usr seg hst prt db).data =
      drv.data ++ (':' :: '/' :: '/' :: (usr.data ++ (seg.data ++ ('@' :: (hst.data ++
        (':' :: (prt.data ++ ('/' :: db.data)))))))) := by
  simp [synthUrl, string_data_append, data_scheme_sep, data_at_sign, data_colon,
    data_slash, List.append_assoc]

theorem pyTruthy_some_of_data (s : String) (h : s.data ≠ []) :
    pyTruthy (some s) = true := by
  cases hd : s.data with
  | nil => exact absurd hd h
  | cons c cs => simp [pyTruthy, hd]

theorem data_ne_nil_of_contains (s pat : String) (hpat : pat.data ≠ [])
    (h : containsStr s pat = true) : s.data ≠ [] := by
  intro hd
  unfold containsStr at h
  rw [hd] at h
  cases hp : pat.data with
  | nil => exact hpat hp
  | cons p ps =>
    rw [hp] at h
    simp [listOccurs, listStarts] at h

theorem synth_no_none (drv usr seg hst prt db : String)
    (h1 : containsStr drv "None" = false) (h2 : containsStr usr "None" = false)
    (h3 : seg = "" ∨ ∃ w, seg = ":" ++ w ∧ containsStr w "None" = false)
    (h4 : containsStr hst "None" = false) (h5 : containsStr prt "None" = false)
    (h6 : containsStr db "None" = false) :
    containsStr (synthUrl drv usr seg hst prt db) "None" = false := by
  unfold containsStr at h1 h2 h4 h5 h6 ⊢
  rw [synthUrl_data]
  cases hocc : listOccurs "None".data
      (drv.data ++ (':' :: '/' :: '/' :: (usr.data ++ (seg.data ++ ('@' :: (hst.data ++
        (':' :: (prt.data ++ ('/' :: db.data))))))))) with
  | false => rfl
  | true =>
    exfalso
    have hne : ("None" : String).data ≠ [] := by decide
    have hcColon : ':' ∉ ("None" : String).data := by decide
    have hcSlash : '/' ∉ ("None" : String).data := by decide
    have hcAt : '@' ∉ ("None" : String).data := by decide
    rcases occurs_split "None".data ':' _ hne hcColon drv.data hocc with h | h
    · rw [h1] at h; exact Bool.noConfusion h
    · have h := occurs_cons_elim "None".data '/' _ hne hcSlash h
      have h := occurs_cons_elim "None".data '/' _ hne hcSlash h
      rw [← List.append_assoc] at h
      rcases occurs_split "None".data '@' _ hne hcAt _ h with h | h
      · rcases h3 with hseg | ⟨w, hw, hwn⟩
        · rw [hseg, data_empty, List.append_nil] at h
          rw [h2] at h; exact Bool.noConfusion h
        · rw [hw, string_data_append, data_colon] at h
          rw [show usr.data ++ ([':'] ++ w.data) = usr.data ++ (':' :: w.data) from by simp]
            at h
          rcases occurs_split "None".data ':' _ hne hcColon usr.data h with h | h
          · rw [h2] at h; exact Bool.noConfusion h
          · unfold containsStr at hwn
            rw [hwn] at h; exact Bool.noConfusion h
      · rcases occurs_split "None".data ':' _ hne hcColon hst.data h with h | h
        · rw [h4] at h; exact Bool.noConfusion h
        · rcases occurs_split "None".data '/' _ hne hcSlash prt.data h with h | h
          · rw [h5] at h; exact Bool.noConfusion h
          · rw [h6] at h; exact Bool.noConfusion h

theorem synth_occurs_of_field (drv usr seg hst prt db : String)
    (h : containsStr usr "None" = true ∨ containsStr seg "None" = true ∨
      containsStr hst "None" = true ∨ containsStr db "None" = true) :
    containsStr (synthUrl drv usr seg hst prt db) "None" = true := by
  unfold containsStr at h ⊢
  rw [synthUrl_data]
  rcases h with h | h | h | h
  · apply occurs_monoL
    apply occurs_cons_of; apply occurs_cons_of; apply occurs_cons_of
    exact occurs_monoR _ _ _ h
  · apply occurs_monoL
    apply occurs_cons_of; apply occurs_cons_of; apply occurs_cons_of
    apply occurs_monoL
    exact occurs_monoR _ _ _ h
  · apply occurs_monoL
    apply occurs_cons_of; apply occurs_cons_of; apply occurs_cons_of
    apply occurs_monoL; apply occurs_monoL; apply occurs_cons_of
    exact occurs_monoR _ _ _ h
  · apply occurs_monoL
    apply occurs_cons_of; apply occurs_cons_of; apply occurs_cons_of
    apply occurs_monoL; apply occurs_monoL; apply occurs_cons_of
    apply occurs_monoL; apply occurs_cons_of
    apply occurs_monoL; apply occurs_cons_of
    exact h

/-- Settings of the C1 scenario: only the generic explicit URL is set and it
uses the legacy short-form scheme. -/
def cfgC1 : DbSettings := { database_url := some "postgres://u:p@h:5432/d" }

/-- C1, counterexample: with only `DATABASE_URL=postgres://u:p@h:5432/d`
configured, `get_db_url(for_async=False)` returns the URL verbatim with the
legacy `postgres://` scheme — not the normalized `postgresql://u:p@h:5432/d`
that the claim asserts. -/
theorem c1_counterexample :
    DbSettings.get_db_url cfgC1 (import_dev_db none) none false =
      .ok "postgres://u:p@h:5432/d" ∧
    DbSettings.get_db_url cfgC1 (import_dev_db none) none false ≠
      .ok "postgresql://u:p@h:5432/d" := by
  refine ⟨rfl, fun h => ?_⟩
  have h3 : (Except.ok "postgres://u:p@h:5432/d" : Except PyError String) =
      Except.ok "postgresql://u:p@h:5432/d" := h
  injection h3 with h4
  exact absurd h4 (by decide)

/-- C1 (amended): when the generic explicit URL is set, `get_db_url` in sync
mode returns it verbatim — the legacy-alias normalization never runs on the
sync path, because the branch returning `database_url` unchanged fires
first. -/
theorem c1_sync_explicit_url_verbatim (s : DbSettings) (url : String)
    (devDb : Except PyError (Option String)) (env : Option String)
    (hurl : s.database_url = some url) (hne : url.data ≠ []) :
    DbSettings.get_db_url s devDb env false = .ok url := by
  unfold DbSettings.get_db_url
  rw [hurl]
  simp [pyTruthy_some_of_data url hne]

/-- C1, witness for the amended theorem at the claim's own input. -/
theorem c1_witness :
    DbSettings.get_db_url cfgC1 (import_dev_db none) none false =
      .ok "postgres://u:p@h:5432/d" :=
  c1_sync_explicit_url_verbatim cfgC1 "postgres://u:p@h:5432/d"
    (import_dev_db none) none rfl (by decide)

/-- C2, counterexample: on the success path of an enabled
`get_async_session` the close spy counts two invocations — one from the
inner finally clause and one from the async context-manager exit — so close
is not invoked exactly once as the claim states. -/
theorem c2_counterexample :
    (get_async_session true ExitPath.success).2.closeCalls = 2 ∧
    (get_async_session true ExitPath.success).2.closeCalls ≠ 1 :=
  ⟨rfl, by decide⟩

/-- C2 (amended): on every exit path — normal completion, early return, or a
raised error — exactly one session is acquired and close is always invoked:
exactly once for the sync `get_db`, and twice (finally clause plus
context-manager exit) for an enabled `get_async_session`. -/
theorem c2_close_on_all_paths (ex : ExitPath) :
    (get_db ex).2.closeCalls = 1 ∧
    (get_db ex).2.sessionsOpened = 1 ∧
    (get_async_session true ex).2.closeCalls = 2 ∧
    (get_async_session true ex).2.sessionsOpened = 1 := by
  cases ex <;> exact ⟨rfl, rfl, rfl, rfl⟩

/-- C3 (code bug): with no explicit URLs, no discrete fields and RUNTIME_ENV
unset, `get_db_url` reaches the local-development fallback, but the module
`workspace.dev_resources` no longer binds `dev_db`, so the in-function name
lookup raises ImportError — the provider is never consulted and the promised
ValueError("Could not build database connection") is never reached. -/
theorem c3_fallback_import_error :
    dev_resources_defines.contains "dev_db" = false ∧
    DbSettings.get_db_url {} (import_dev_db none) none false =
      .error (.importError "cannot import name dev_db from workspace.dev_resources") ∧
    DbSettings.get_db_url {} (import_dev_db none) none false ≠
      .error (.valueError "Could not build database connection") := by
  refine ⟨rfl, rfl, fun h => ?_⟩
  have h3 : (Except.error (PyError.importError
      "cannot import name dev_db from workspace.dev_resources") : Except PyError String) =
      Except.error (PyError.valueError "Could not build database connection") := h
  injection h3 with h4
  exact PyError.noConfusion h4

/-- C4: when async mode is disabled, `get_async_session` raises the
configuration error (a RuntimeError in the source) immediately on entry,
with no session constructed and close never invoked, on every caller exit
path. -/
theorem c4_async_disabled_raises (ex : ExitPath) :
    get_async_session false ex =
      (.error (.runtimeError
        "Асинхронное подключение не настроено. Установите USE_ASYNC_DRIVER=True"),
       { sessionsOpened := 0, closeCalls := 0 }) := rfl

/-- C7, counterexample: when the sync pool does not expose `status`,
`get_db_stats` raises AttributeError, so the whole snapshot fails instead of
the field being reported as unavailable — refuting "never raises". -/
theorem c7_counterexample :
    get_db_stats false {} {} = .error (.attributeError "status") := rfl

/-- C7 (amended): `get_db_stats` is a pure read of the pool counters; when
every counter it accesses is exposed it returns the snapshot without
raising, and with async mode disabled the snapshot carries no async block;
a missing counter, however, raises AttributeError for the whole call. -/
theorem c7_stats_snapshot (useAsync : Bool) (sp ap : PoolAPI) (st : String)
    (sz ci ov co : Int)
    (hst : sp.status = some st) (hsz : ap.size = some sz)
    (hci : ap.checkedin = some ci) (hov : ap.overflow = some ov)
    (hco : ap.checkedout = some co) :
    get_db_stats useAsync sp ap =
      .ok { sync_mode := "sqlalchemy", async_enabled := useAsync, engine_stats := st,
            async_engine_stats := if useAsync then some ⟨sz, ci, ov, co⟩ else none } := by
  unfold get_db_stats
  rw [hst, hsz, hci, hov, hco]
  cases useAsync <;> rfl

/-- C7, witness for the amended theorem on fully populated pools. -/
theorem c7_witness :
    get_db_stats true
      { status := some "Pool size: 5", size := some 5, checkedin := some 4,
        overflow := some 0, checkedout := some 1 }
      { status := some "Pool size: 5", size := some 5, checkedin := some 4,
        overflow := some 0, checkedout := some 1 } =
      .ok { sync_mode := "sqlalchemy", async_enabled := true,
            engine_stats := "Pool size: 5",
            async_engine_stats := some ⟨5, 4, 0, 1⟩ } := by
  have h := c7_stats_snapshot true
    { status := some "Pool size: 5", size := some 5, checkedin := some 4,
      overflow := some 0, checkedout := some 1 }
    { status := some "Pool size: 5", size := some 5, checkedin := some 4,
      overflow := some 0, checkedout := some 1 }
    "Pool size: 5" 5 4 0 1 rfl rfl rfl rfl rfl
  exact h

/-- C8: for every settings snapshot `get_engine_kwargs` sets pool_pre_ping
unconditionally, copies pool_size and max_overflow from the settings, and
adds the mandatory-TLS connect_args entry (sslmode=require) exactly when the
explicit URL is configured and contains the managed-cloud marker
"neon.tech". -/
theorem c8_engine_kwargs (s : DbSettings) :
    (DbSettings.get_engine_kwargs s).pool_pre_ping = true ∧
    (DbSettings.get_engine_kwargs s).pool_size = s.pool_size ∧
    (DbSettings.get_engine_kwargs s).max_overflow = s.max_overflow ∧
    ((DbSettings.get_engine_kwargs s).connect_args_sslmode = some "require" ↔
      ∃ url, s.database_url = some url ∧ containsStr url "neon.tech" = true) := by
  cases hdb : s.database_url with
  | none => simp [DbSettings.get_engine_kwargs, hdb, pyTruthy]
  | some url =>
    by_cases hc : containsStr url "neon.tech" = true
    · have hne : url.data ≠ [] := data_ne_nil_of_contains url "neon.tech" (by decide) hc
      simp [DbSettings.get_engine_kwargs, hdb, pyTruthy_some_of_data url hne, hc]
    · have hcf : containsStr url "neon.tech" = false := by
        revert hc; cases containsStr url "neon.tech" <;> simp
      simp [DbSettings.get_engine_kwargs, hdb, hcf]

/-- C10: the async engine, when constructed, receives exactly the same
kwargs value as the sync engine; `get_engine_kwargs` never examines
`database_url_async`; and with no sync explicit URL the TLS requirement is
never produced, whatever the async URL holds. -/
theorem c10_kwargs_shared (s : DbSettings) (x : Option String)
    (devDb : Except PyError (Option String)) (env : Option String) :
    DbSettings.get_engine_kwargs { s with database_url_async := x } =
      DbSettings.get_engine_kwargs s ∧
    (session_module_init devDb env s).sync_engine_kwargs =
      DbSettings.get_engine_kwargs s ∧
    (session_module_init devDb env s).async_engine.map Prod.snd =
      (if s.use_async_driver then some (DbSettings.get_engine_kwargs s) else none) ∧
    (s.database_url = none →
      (DbSettings.get_engine_kwargs s).connect_args_sslmode = none) := by
  refine ⟨?_, rfl, ?_, fun h => ?_⟩
  · cases s; rfl
  · unfold session_module_init
    cases s.use_async_driver <;> simp
  · simp [DbSettings.get_engine_kwargs, h, pyTruthy]

/-- Settings of the C10 witness: no sync explicit URL, while the async
explicit URL points at a managed-cloud host. -/
def cfgC10 : DbSettings :=
  { database_url := none,
    database_url_async :=
      some "postgresql+asyncpg://owner:pw@ep-x-pooler.aws.neon.tech/neondb" }

/-- C10, witness: at the concrete async-only managed-cloud configuration the
kwargs ignore the async URL and carry no TLS requirement. -/
theorem c10_witness :
    DbSettings.get_engine_kwargs { cfgC10 with database_url_async := none } =
      DbSettings.get_engine_kwargs cfgC10 ∧
    (DbSettings.get_engine_kwargs cfgC10).connect_args_sslmode = none :=
  ⟨(c10_kwargs_shared cfgC10 none (import_dev_db none) none).1,
   (c10_kwargs_shared cfgC10 none (import_dev_db none) none).2.2.2 rfl⟩

/-- Settings of the C5 counterexample: a legacy-scheme explicit URL whose
remainder mentions `postgres://` a second time. -/
def cfgC5 : DbSettings :=
  { database_url := some "postgres://u:p@h:5432/d?x=postgres://e" }

/-- C5, counterexample: both rewrites are global substring replacements, so
for a legacy-scheme URL whose remainder mentions `postgres://` again the
async result changes more than the scheme — the later occurrence is
rewritten too. -/
theorem c5_counterexample :
    DbSettings.get_db_url cfgC5 (import_dev_db none) none true =
      .ok "postgresql+asyncpg://u:p@h:5432/d?x=postgresql+asyncpg://e" ∧
    ("postgresql+asyncpg://u:p@h:5432/d?x=postgresql+asyncpg://e" : String) ≠
      "postgresql+asyncpg://" ++ "u:p@h:5432/d?x=postgres://e" ∧
    DbSettings.get_db_url cfgC5 (import_dev_db none) none true ≠
      .ok ("postgresql+asyncpg://" ++ "u:p@h:5432/d?x=postgres://e") := by
  refine ⟨rfl, by decide, fun h => ?_⟩
  have h3 : (Except.ok "postgresql+asyncpg://u:p@h:5432/d?x=postgresql+asyncpg://e" :
      Except PyError String) =
      Except.ok ("postgresql+asyncpg://" ++ "u:p@h:5432/d?x=postgres://e") := h
  injection h3 with h4
  exact absurd h4 (by decide)

/-- C5 (amended): for a generic explicit URL with the legacy scheme alias
whose remainder contains no further `postgres://` or `postgresql://`
occurrence (and no mode-specific async URL set), the async resolution
normalizes the alias first and then applies the async-driver rewrite,
returning the canonical async scheme followed by the unchanged remainder. -/
theorem c5_alias_async_rewrite (s : DbSettings) (rest : String)
    (devDb : Except PyError (Option String)) (env : Option String)
    (hurl : s.database_url = some ("postgres://" ++ rest))
    (hasync : s.database_url_async = none)
    (h1 : containsStr rest "postgres://" = false)
    (h2 : containsStr rest "postgresql://" = false) :
    DbSettings.get_db_url s devDb env true = .ok ("postgresql+asyncpg://" ++ rest) := by
  have hb1 : strReplace ("postgres://" ++ rest) "postgres://" "postgresql://" =
      "postgresql://" ++ rest :=
    strReplace_front _ rest _ _ (string_data_append _ _) (by decide) h1
  have hb2 : strReplace ("postgresql://" ++ rest) "postgresql://"
      "postgresql+asyncpg://" = "postgresql+asyncpg://" ++ rest :=
    strReplace_front _ rest _ _ (string_data_append _ _) (by decide) h2
  have hne : ("postgres://" ++ rest).data ≠ [] := by
    rw [string_data_append]
    intro hcontra
    rcases List.append_eq_nil.mp hcontra with ⟨ha, _⟩
    exact absurd ha (by decide)
  have htr : pyTruthy (some ("postgres://" ++ rest)) = true :=
    pyTruthy_some_of_data _ hne
  unfold DbSettings.get_db_url
  rw [hurl, hasync]
  simp [htr, hb1, hb2, pyTruthy]

/-- C5, witness for the amended theorem at the claim's example input. -/
theorem c5_witness :
    DbSettings.get_db_url { database_url := some ("postgres://" ++ "u:p@h:5432/d") }
      (import_dev_db none) none true =
      .ok ("postgresql+asyncpg://" ++ "u:p@h:5432/d") :=
  c5_alias_async_rewrite _ "u:p@h:5432/d" (import_dev_db none) none rfl rfl
    (by decide) (by decide)

/-- C6: with no explicit URLs and every discrete field set, `get_db_url`
synthesizes `{driver}://{user}[:{password}]@{host}:{port}/{database}` where
the driver token is the async identifier in async mode and the configured
default driver otherwise, and the password segment is omitted entirely when
no password is configured.  The hypotheses record that no rendered field
accidentally contains the missing-field marker text `None` (see the separate
claim about that marker). -/
theorem c6_discrete_fields_url (usr hst dbn drv : String) (prt : Int)
    (pw : Option String) (psz mo : Nat) (fa : Bool)
    (devDb : Except PyError (Option String)) (env : Option String)
    (hu : containsStr usr "None" = false) (hh : containsStr hst "None" = false)
    (hd : containsStr dbn "None" = false) (hv : containsStr drv "None" = false)
    (hp : containsStr (toString prt) "None" = false)
    (hw : ∀ w, pw = some w → containsStr w "None" = false) :
    DbSettings.get_db_url
      { db_host := some hst, db_port := some prt, db_user := some usr,
        db_pass := pw, db_database := some dbn, db_driver := drv,
        pool_size := psz, max_overflow := mo }
      devDb env fa =
    .ok (synthUrl (if fa then "postgresql+asyncpg" else drv) usr
      (if pyTruthy pw then ":" ++ pw.getD "" else "") hst (toString prt) dbn) := by
  have hseg : (if pyTruthy pw then ":" ++ pw.getD "" else "") = "" ∨
      ∃ w, (if pyTruthy pw then ":" ++ pw.getD "" else "") = ":" ++ w ∧
        containsStr w "None" = false := by
    cases pw with
    | none => exact Or.inl rfl
    | some w =>
      cases hwe : w.data with
      | nil => exact Or.inl (by simp [pyTruthy, hwe])
      | cons c cs => exact Or.inr ⟨w, by simp [pyTruthy, hwe], hw w rfl⟩
  have hdrv : containsStr (if fa then "postgresql+asyncpg" else drv) "None" = false := by
    cases fa
    · simpa using hv
    · show containsStr "postgresql+asyncpg" "None" = false
      decide
  have hnone : containsStr (synthUrl (if fa then "postgresql+asyncpg" else drv) usr
      (if pyTruthy pw then ":" ++ pw.getD "" else "") hst (toString prt) dbn)
      "None" = false :=
    synth_no_none _ _ _ _ _ _ hdrv hu hseg hh hp hd
  have hpn : pyTruthy (none : Option String) = false := rfl
  unfold DbSettings.get_db_url
  simp [pyFmt, pyFmtPort, hpn, hnone]

/-- C6, witness at the spec's own end-to-end scenario (host localhost, port
5432, user app, database appdb, no password). -/
theorem c6_witness :
    DbSettings.get_db_url
      { db_host := some "localhost", db_port := some 5432, db_user := some "app",
        db_pass := none, db_database := some "appdb",
        db_driver := "postgresql+psycopg", pool_size := 5, max_overflow := 10 }
      (import_dev_db none) none false =
      .ok "postgresql+psycopg://app@localhost:5432/appdb" :=
  c6_discrete_fields_url "app" "localhost" "appdb" "postgresql+psycopg" 5432 none 5 10
    false (import_dev_db none) none (by decide) (by decide) (by decide) (by decide)
    (by decide) (fun w hw => Option.noConfusion hw)

/-- C9: the missing-field check of `get_db_url` is a literal `None` substring
test on the synthesized URL, so a configuration with every discrete field
set whose field value merely contains the text `None` is still routed into
the local-fallback path when RUNTIME_ENV is unset, and into the
ValueError("Could not build database connection") when RUNTIME_ENV is set —
even though no field is missing. -/
theorem c9_none_marker_misfire (usr hst dbn drv : String) (prt : Int) (pw : String)
    (psz mo : Nat) (fa : Bool) (devDb : Except PyError (Option String)) (e : String)
    (hocc : containsStr usr "None" = true ∨ containsStr pw "None" = true ∨
      containsStr hst "None" = true ∨ containsStr dbn "None" = true) :
    DbSettings.get_db_url
        { db_host := some hst, db_port := some prt, db_user := some usr,
          db_pass := some pw, db_database := some dbn, db_driver := drv,
          pool_size := psz, max_overflow := mo }
        devDb none fa =
      local_fallback devDb fa
        (synthUrl (if fa then "postgresql+asyncpg" else drv) usr
          (if pyTruthy (some pw) then ":" ++ pw else "") hst (toString prt) dbn) ∧
    DbSettings.get_db_url
        { db_host := some hst, db_port := some prt, db_user := some usr,
          db_pass := some pw, db_database := some dbn, db_driver := drv,
          pool_size := psz, max_overflow := mo }
        devDb (some e) fa =
      .error (.valueError "Could not build database connection") := by
  have hsegocc : containsStr usr "None" = true ∨
      containsStr (if pyTruthy (some pw) then ":" ++ pw else "") "None" = true ∨
      containsStr hst "None" = true ∨ containsStr dbn "None" = true := by
    rcases hocc with h | h | h | h
    · exact Or.inl h
    · refine Or.inr (Or.inl ?_)
      have hpwne : pw.data ≠ [] := data_ne_nil_of_contains pw "None" (by decide) h
      rw [if_pos (pyTruthy_some_of_data pw hpwne)]
      unfold containsStr at h ⊢
      rw [string_data_append, data_colon]
      exact occurs_monoL _ _ _ h
    · exact Or.inr (Or.inr (Or.inl h))
    · exact Or.inr (Or.inr (Or.inr h))
  have hkey : containsStr (synthUrl (if fa then "postgresql+asyncpg" else drv) usr
      (if pyTruthy (some pw) then ":" ++ pw else "") hst (toString prt) dbn)
      "None" = true :=
    synth_occurs_of_field _ _ _ _ _ _ hsegocc
  have hpn : pyTruthy (none : Option String) = false := rfl
  constructor
  · unfold DbSettings.get_db_url
    simp [pyFmt, pyFmtPort, hpn, hkey]
  · unfold DbSettings.get_db_url
    simp [pyFmt, pyFmtPort, hpn, hkey]

/-- C9, witness: all fields set, password text containing `None`; with
RUNTIME_ENV unset the local provider's URL is returned although nothing was
missing, and with RUNTIME_ENV set the resolution fails. -/
theorem c9_witness :
    DbSettings.get_db_url
        { db_host := some "h", db_port := some 1, db_user := some "app",
          db_pass := some "aNones", db_database := some "d",
          db_driver := "postgresql+psycopg", pool_size := 5, max_overflow := 10 }
        (.ok (some "postgresql://local/db")) none false =
      .ok "postgresql://local/db" ∧
    DbSettings.get_db_url
        { db_host := some "h", db_port := some 1, db_user := some "app",
          db_pass := some "aNones", db_database := some "d",
          db_driver := "postgresql+psycopg", pool_size := 5, max_overflow := 10 }
        (.ok (some "postgresql://local/db")) (some "dev") false =
      .error (.valueError "Could not build database connection") := by
  have h := c9_none_marker_misfire "app" "h" "d" "postgresql+psycopg" 1 "aNones" 5 10
    false (.ok (some "postgresql://local/db")) "dev" (Or.inr (Or.inl (by decide)))
  exact ⟨h.1.trans rfl, h.2⟩

/-- C2, witness instantiating the amended theorem on the early-return path. -/
theorem c2_witness :
    (get_db ExitPath.earlyReturn).2.closeCalls = 1 ∧
    (get_db ExitPath.earlyReturn).2.sessionsOpened = 1 ∧
    (get_async_session true ExitPath.earlyReturn).2.closeCalls = 2 ∧
    (get_async_session true ExitPath.earlyReturn).2.sessionsOpened = 1 :=
  c2_close_on_all_paths ExitPath.earlyReturn

/-- C4, witness instantiating the theorem on a raising caller scope. -/
theorem c4_witness :
    get_async_session false (ExitPath.raisedErr "boom") =
      (.error (.runtimeError
        "Асинхронное подключение не настроено. Установите USE_ASYNC_DRIVER=True"),
       { sessionsOpened := 0, closeCalls := 0 }) :=
  c4_async_disabled_raises (ExitPath.raisedErr "boom")

/-- Settings of the C8 witness: an explicit URL containing the managed-cloud
host marker. -/
def cfgC8 : DbSettings :=
  { database_url := some "postgresql://owner:pw@ep-x-pooler.aws.neon.tech/neondb" }

/-- C8, witness instantiating the theorem on a managed-cloud configuration. -/
theorem c8_witness :
    (DbSettings.get_engine_kwargs cfgC8).pool_pre_ping = true ∧
    (DbSettings.get_engine_kwargs cfgC8).pool_size = cfgC8.pool_size ∧
    (DbSettings.get_engine_kwargs cfgC8).max_overflow = cfgC8.max_overflow ∧
    ((DbSettings.get_engine_kwargs cfgC8).connect_args_sslmode = some "require" ↔
      ∃ url, cfgC8.database_url = some url ∧ containsStr url "neon.tech" = true) :=
  c8_engine_kwargs cfgC8
